import Mathlib

/-!
Formal model of the web-voyager-extension browser automation control plane.

The definitions below are a shallow embedding of the TypeScript sources:
  src/background/cdp-session.ts   (CDPSession: protocol command dispatch)
  src/background/browser.ts       (Browser: per-window tab registry)
  src/background/chrome-controller.ts (ChromeController: window registry)
  src/background/tab.ts           (Tab: lazily created CDP session)
  src/background/document.ts      (Document: cached element observation)
  src/sidepanel/agent-controller.ts (AgentController: perception-action loop)

JavaScript numbers that the code only ever produces as integers-or-NaN
(element ids coming out of parseInt) are modelled by the type JsInt below;
other numeric values (coordinates, sizes, delays) are modelled as rationals.
Asynchronous protocol calls are modelled by a trace semantics: every
operation returns the ordered list of events it emits (protocol commands
and sleeps) together with an Except value for the JavaScript throw/return
outcome.
-/

deriving instance DecidableEq for Except

namespace WebVoyager

/-- A JavaScript number that is either NaN or an integer.  This is the image
of parseInt, and of the optional elementId field fed by it.  NaN compares
unequal to everything under the strict equality used by the code. -/
inductive JsInt where
  | nan : JsInt
  | val (n : Int) : JsInt
deriving DecidableEq, Repr

/-- Strict equality test of the code (el.id === action.elementId) between a
plain number and a possibly-NaN number: NaN is equal to nothing. -/
def jsIntEq (n : Int) : JsInt → Bool
  | .nan => false
  | .val m => n == m

/-- Truthiness of an optional JS number: undefined, NaN and 0 are falsy. -/
def jsTruthyNum : Option JsInt → Bool
  | some (.val n) => n != 0
  | _ => false

/-- Truthiness of an optional JS string: undefined and the empty string are
falsy. -/
def jsTruthyStr : Option String → Bool
  | some s => s != ""
  | none => false

/-- JavaScript a || b for an optional numeric a with default b: a falsy value
(undefined or 0) is replaced by the default.  Used for action.amount || 300
and action.duration || 2000. -/
def jsOrNum (a : Option Rat) (b : Rat) : Rat :=
  match a with
  | some q => if q = 0 then b else q
  | none => b

/-- Math.round on a rational: round half toward positive infinity, which is
what JavaScript Math.round does. -/
def jsRound (q : Rat) : Int :=
  ⌊q + 1/2⌋

/-- Bounding box of a marked element, mirroring the rect field of the
MarkedElement interface in src/shared/types.ts. -/
structure Rect where
  x : Rat
  y : Rat
  width : Rat
  height : Rat
  left : Rat
  top : Rat
  right : Rat
  bottom : Rat
deriving DecidableEq, Repr

/-- MarkedElement from src/shared/types.ts (the attributes map, which no
claim touches, is left out; the scan in src/content/marker.ts assigns the
ids). -/
structure MarkedElement where
  id : Int
  tagName : String
  text : String
  rect : Rect
  scrollable : Bool := false
deriving DecidableEq, Repr

/-- AIAction from src/shared/types.ts: a record whose type tag selects the
variant and whose remaining fields are all optional.  The tag is kept as a
raw string so that the default branch of the switch in executeAction stays
reachable, exactly as in the source. -/
structure AIAction where
  type : String
  elementId : Option JsInt := none
  text : Option String := none
  direction : Option String := none
  duration : Option Rat := none
  x : Option Rat := none
  y : Option Rat := none
  url : Option String := none
  amount : Option Rat := none
deriving DecidableEq, Repr

/-- One Chrome DevTools Protocol command as sent through
chrome.debugger.sendCommand by CDPSession. -/
inductive Cmd where
  | pageEnable : Cmd
  | pageCaptureScreenshot : Cmd
  | dispatchMouseEvent (kind : String) (x y : Int) (button : String) (clickCount : Nat) : Cmd
  | mouseWheel (x y deltaX deltaY : Rat) : Cmd
  | insertText (text : String) : Cmd
  | dispatchKeyEvent (kind key : String) : Cmd
  | pageNavigate (url : String) : Cmd
deriving DecidableEq, Repr

/-- An observable event of the session: a protocol command handed to the
transport, or a timed sleep (this.wait in the source). -/
inductive Event where
  | cmd (c : Cmd) : Event
  | sleep (ms : Rat) : Event
deriving DecidableEq, Repr

/-- Errors thrown by CDPSession, one constructor per distinct throw site in
src/background/cdp-session.ts.  chromeError stands for the rejection coming
back from chrome.debugger.sendCommand when the debugger is not attached
(chrome.runtime.lastError propagated by the private sendCommand helper). -/
inductive CdpErr where
  | notConnected : CdpErr
  | elementNotFound (id : JsInt) : CdpErr
  | clickNeedsArgs : CdpErr
  | typeNeedsText : CdpErr
  | scrollNeedsDirection : CdpErr
  | navigateNeedsUrl : CdpErr
  | unknownAction (tag : String) : CdpErr
  | chromeError : CdpErr
deriving DecidableEq, Repr

/-- Result of a session operation: the emitted event trace and the
JavaScript outcome (normal return or throw). -/
abbrev CdpResult := List Event × Except CdpErr Unit

/-- Element lookup of the source, elements.find(el => el.id === action.elementId). -/
def jsFind (es : List MarkedElement) (id : JsInt) : Option MarkedElement :=
  es.find? (fun el => jsIntEq el.id id)

/-- CDPSession.simulateClick: guarded by the connected flag, then a
mouse-move, mouse-down, 50ms wait and mouse-up, all at the Math.round of the
given point. -/
def simulateClickTr (connected : Bool) (x y : Rat) : CdpResult :=
  if !connected then ([], .error .notConnected)
  else
    ([ .cmd (.dispatchMouseEvent "mouseMoved" (jsRound x) (jsRound y) "none" 0),
       .cmd (.dispatchMouseEvent "mousePressed" (jsRound x) (jsRound y) "left" 1),
       .sleep 50,
       .cmd (.dispatchMouseEvent "mouseReleased" (jsRound x) (jsRound y) "left" 1) ], .ok ())

/-- CDPSession.simulateType: guarded by the connected flag, then one atomic
Input.insertText command. -/
def simulateTypeTr (connected : Bool) (text : String) : CdpResult :=
  if !connected then ([], .error .notConnected)
  else ([.cmd (.insertText text)], .ok ())

/-- CDPSession.simulateScroll: guarded by the connected flag; deltaY is the
amount for direction down and its negation otherwise; missing coordinates
default to (400, 300).  The coordinates are forwarded unrounded. -/
def simulateScrollTr (connected : Bool) (direction : String) (amount : Rat)
    (x y : Option Rat) : CdpResult :=
  if !connected then ([], .error .notConnected)
  else
    let deltaY : Rat := if direction = "down" then amount else -amount
    let scrollX := x.getD 400
    let scrollY := y.getD 300
    ([.cmd (.mouseWheel scrollX scrollY 0 deltaY)], .ok ())

/-- CDPSession.captureScreenshot: guarded by the connected flag, then one
Page.captureScreenshot command. -/
def captureScreenshotTr (connected : Bool) : CdpResult :=
  if !connected then ([], .error .notConnected)
  else ([.cmd .pageCaptureScreenshot], .ok ())

/-- Center of a bounding box as computed at every element-targeting site:
left + width / 2 and top + height / 2. -/
def rectCenterX (r : Rect) : Rat := r.left + r.width / 2

/-- Vertical center, top + height / 2. -/
def rectCenterY (r : Rect) : Rat := r.top + r.height / 2

/-- Key-combo clearing sequence of the type case: Meta down, a down, a up,
Meta up (select-all before inserting). -/
def selectAllKeys : List Event :=
  [ .cmd (.dispatchKeyEvent "keyDown" "Meta"),
    .cmd (.dispatchKeyEvent "keyDown" "a"),
    .cmd (.dispatchKeyEvent "keyUp" "a"),
    .cmd (.dispatchKeyEvent "keyUp" "Meta") ]

/-- CDPSession.executeAction from src/background/cdp-session.ts, as a trace
function.  Each branch mirrors one case of the switch:
  click  - element path taken when elementId is not undefined and an
           elements array was supplied (strict !== undefined test);
  type   - element path taken only when elementId, elements and text are all
           truthy (so elementId 0 or NaN falls through to the focus-typing
           path);
  scroll - direction is checked first, then the same strict elementId test
           as click;
  wait   - duration || 2000, no connectivity guard;
  navigate - Page.navigate sent with no connectivity guard, then a 3000ms
           settle wait (when attached, the transport accepts the command);
  done   - no effect;
  other  - throw Unknown action type. -/
def executeActionTrace (connected : Bool) (action : AIAction)
    (elements : Option (List MarkedElement)) : CdpResult :=
  match action.type with
  | "click" =>
    match action.elementId, elements with
    | some jid, some es =>
      match jsFind es jid with
      | none => ([], .error (.elementNotFound jid))
      | some el => simulateClickTr connected (rectCenterX el.rect) (rectCenterY el.rect)
    | _, _ =>
      match action.x, action.y with
      | some px, some py => simulateClickTr connected px py
      | _, _ => ([], .error .clickNeedsArgs)
  | "type" =>
    if jsTruthyNum action.elementId && elements.isSome && jsTruthyStr action.text then
      match action.elementId, elements, action.text with
      | some jid, some es, some s =>
        match jsFind es jid with
        | none => ([], .error (.elementNotFound jid))
        | some el =>
          match simulateClickTr connected (rectCenterX el.rect) (rectCenterY el.rect) with
          | (tr, .ok _) =>
            match simulateTypeTr connected s with
            | (tr2, r2) => (tr ++ [.sleep 100] ++ selectAllKeys ++ tr2, r2)
          | (tr, .error e) => (tr, .error e)
      | _, _, _ => ([], .error .typeNeedsText)
    else if jsTruthyStr action.text then
      match action.text with
      | some s => simulateTypeTr connected s
      | none => ([], .error .typeNeedsText)
    else ([], .error .typeNeedsText)
  | "scroll" =>
    if !jsTruthyStr action.direction then ([], .error .scrollNeedsDirection)
    else
      let dir := (action.direction).getD ""
      match action.elementId, elements with
      | some jid, some es =>
        match jsFind es jid with
        | none => ([], .error (.elementNotFound jid))
        | some el =>
          simulateScrollTr connected dir (jsOrNum action.amount 300)
            (some (rectCenterX el.rect)) (some (rectCenterY el.rect))
      | _, _ =>
        match action.x, action.y with
        | some px, some py =>
          simulateScrollTr connected dir (jsOrNum action.amount 300) (some px) (some py)
        | _, _ => simulateScrollTr connected dir (jsOrNum action.amount 300) none none
  | "wait" => ([.sleep (jsOrNum action.duration 2000)], .ok ())
  | "navigate" =>
    if !jsTruthyStr action.url then ([], .error .navigateNeedsUrl)
    else
      let u := (action.url).getD ""
      if connected then ([.cmd (.pageNavigate u), .sleep 3000], .ok ())
      else ([.cmd (.pageNavigate u)], .error .chromeError)
  | "done" => ([], .ok ())
  | other => ([], .error (.unknownAction other))

/-- Protocol commands of a trace (the sleeps filtered out). -/
def protocolCmds (tr : List Event) : List Cmd :=
  tr.filterMap (fun e => match e with | .cmd c => some c | .sleep _ => none)

/-! ## Browser and ChromeController (src/background/browser.ts, chrome-controller.ts) -/

/-- Truthiness of an optional plain number: undefined and 0 are falsy.  This
models the bare if checks on activeTabId and activeWindowId. -/
def jsTruthyIntOpt : Option Int → Bool
  | some n => n != 0
  | none => false

/-- State of one Browser instance: the insertion-ordered key set of the
tabs Map (the Tab values themselves are immaterial to the tracked claims)
and the activeTabId field. -/
structure BrowserState where
  windowId : Int
  tabs : List Int
  activeTabId : Option Int
deriving DecidableEq, Repr

/-- Map.set on the key set: JavaScript Map keeps the original position of an
existing key and appends a new one. -/
def mapSetKey (l : List Int) (k : Int) : List Int :=
  if k ∈ l then l else l ++ [k]

/-- Browser.createTab: inserts the tab into the map (initialization failures
are logged and swallowed, so the map mutation always survives). -/
def Browser.createTab (s : BrowserState) (tabId : Int) : BrowserState :=
  { s with tabs := mapSetKey s.tabs tabId }

/-- Browser.setActiveTab: unconditional assignment of activeTabId. -/
def Browser.setActiveTab (s : BrowserState) (tabId : Int) : BrowserState :=
  { s with activeTabId := some tabId }

/-- Browser.getActiveTab: a falsiness guard on activeTabId followed by a map
lookup, returning the found key. -/
def Browser.getActiveTab (s : BrowserState) : Option Int :=
  if !jsTruthyIntOpt s.activeTabId then none
  else
    match s.activeTabId with
    | some a => if a ∈ s.tabs then some a else none
    | none => none

/-- Browser.removeTab: delete the key, then, when it was the active tab,
fall back to the first remaining key or null. -/
def Browser.removeTab (s : BrowserState) (tabId : Int) : BrowserState :=
  let tabs2 := s.tabs.erase tabId
  if s.activeTabId = some tabId then
    { s with tabs := tabs2, activeTabId := tabs2.head? }
  else
    { s with tabs := tabs2 }

/-- Browser.destroy: clear the map and null the active pointer. -/
def Browser.destroy (s : BrowserState) : BrowserState :=
  { s with tabs := [], activeTabId := none }

/-- ChromeController.onTabActivated, restricted to the browser of the given
window: set the active tab first, then create the tab if the map lacks it
and the host reports the tab as existing (hostHasTab models the outcome of
chrome.tabs.get). -/
def onTabActivatedBrowser (hostHasTab : Bool) (s : BrowserState) (tabId : Int) : BrowserState :=
  let s1 := Browser.setActiveTab s tabId
  if tabId ∈ s1.tabs then s1
  else if hostHasTab then Browser.createTab s1 tabId else s1

/-- Invariant claimed for BrowserContext: a non-null activeTabId is a key of
the tabs map (decidable form). -/
def activeTabInv (s : BrowserState) : Bool :=
  match s.activeTabId with
  | some a => decide (a ∈ s.tabs)
  | none => true

/-- State of the ChromeController: key set of the browsers Map and the
activeWindowId field. -/
structure ChromeControllerState where
  browsers : List Int
  activeWindowId : Option Int
deriving DecidableEq, Repr

/-- ChromeController.getActiveBrowser: a falsiness guard on activeWindowId
followed by a map lookup. -/
def ChromeController.getActiveBrowser (c : ChromeControllerState) : Option Int :=
  if !jsTruthyIntOpt c.activeWindowId then none
  else
    match c.activeWindowId with
    | some a => if a ∈ c.browsers then some a else none
    | none => none

/-! ## Tab and Document (src/background/tab.ts, document.ts) -/

/-- One CDPSession instance.  The sid field is an allocation nonce telling
instances apart (object identity); tabId and connected mirror the fields of
the class. -/
structure CDPSessionInst where
  sid : Nat
  tabId : Int
  connected : Bool
deriving DecidableEq, Repr

/-- CDPSession.disconnect: detaches when connected, otherwise a no-op;
either way the flag ends up false.  Idempotent. -/
def CDPSessionInst.disconnect (s : CDPSessionInst) : CDPSessionInst :=
  { s with connected := false }

/-- Cached observation state of a Document instance. -/
structure DocumentState where
  elements : List MarkedElement
  url : String
  isMarked : Bool
deriving DecidableEq, Repr

/-- Document.updateUrl: a changed URL clears the cached elements and the
marked flag; an unchanged URL leaves everything alone. -/
def Document.updateUrl (d : DocumentState) (u : String) : DocumentState :=
  if d.url ≠ u then { elements := [], isMarked := false, url := u } else d

/-- State of one Tab instance. -/
structure TabState where
  tabId : Int
  url : String
  document : Option DocumentState
  cdpSession : Option CDPSessionInst
  isInitialized : Bool
deriving DecidableEq, Repr

/-- Tab.ensureCDPConnection.  connectOk models whether CDPSession.connect
succeeds for this tab (chrome.tabs.get plus the protected-scheme check plus
chrome.debugger.attach); fresh is the allocation counter for new session
instances.  When the stored session is missing or disconnected, the stale
one is disconnected and a fresh instance is constructed and connected; when
connect fails the new unconnected instance stays in the field and the error
propagates, as in the source. -/
def Tab.ensureCDPConnection (connectOk : Bool) (t : TabState) (fresh : Nat) :
    TabState × Nat × Except String Unit :=
  let needNew := match t.cdpSession with
    | some s => !s.connected
    | none => true
  if needNew then
    let s2 : CDPSessionInst := { sid := fresh, tabId := t.tabId, connected := connectOk }
    ({ t with cdpSession := some s2 }, fresh + 1,
      if connectOk then .ok () else .error "Cannot debug protected tab")
  else (t, fresh, .ok ())

/-- Tab.onUrlChanged: record the new URL, propagate it to the document
(clearing the cached observation when the URL differs), disconnect the
session and drop the reference.  The second component returns the old
session as it is after the disconnect call, for reasoning about it. -/
def Tab.onUrlChanged (t : TabState) (newUrl : String) : TabState × Option CDPSessionInst :=
  let doc2 := t.document.map (fun d => Document.updateUrl d newUrl)
  match t.cdpSession with
  | some s =>
    ({ t with url := newUrl, document := doc2, cdpSession := none }, some s.disconnect)
  | none => ({ t with url := newUrl, document := doc2 }, none)

/-! ## AgentController (src/sidepanel/agent-controller.ts) -/

/-- Structured oracle reply from src/sidepanel/claude-api.ts: the action tag
(one of Click, Type, Scroll, Wait, GoBack, Navigate, ANSWER, retry for a
schema-validated reply, but kept as a raw string so the default branch of
the conversion stays reachable), the optional args array (every use in the
conversion goes through a String() coercion, so the entries are modelled as
strings), and the free-text reasoning. -/
structure Prediction where
  action : String
  args : Option (List String) := none
  reasoning : String := ""
deriving DecidableEq, Repr

/-- Numeric value of a list of decimal digits. -/
def digitsToNat (cs : List Char) : Nat :=
  cs.foldl (fun n c => n * 10 + (c.toNat - 48)) 0

/-- JavaScript parseInt restricted to its decimal behaviour: optional
leading whitespace and sign, then the longest prefix of decimal digits; NaN
when that prefix is empty.  The radix-prefix forms of parseInt are not
modelled; no call site in the repository feeds them. -/
def jsParseInt (s : String) : JsInt :=
  let cs := s.toList.dropWhile (fun c => c == ' ' || c == '\t' || c == '\n' || c == '\r')
  let core := fun (neg : Bool) (rest : List Char) =>
    let ds := rest.takeWhile (fun c => c.isDigit)
    if ds.isEmpty then JsInt.nan
    else JsInt.val (if neg then -(digitsToNat ds : Int) else (digitsToNat ds : Int))
  match cs with
  | '-' :: rest => core true rest
  | '+' :: rest => core false rest
  | rest => core false rest

/-- AgentController.convertPredictionToAction: one case per action tag, with
every arity-failing case breaking out of the switch into the trailing
return of the done action. -/
def convertPredictionToAction (p : Prediction) : AIAction :=
  match p.action with
  | "Click" =>
    match p.args with
    | some (a0 :: _) => { type := "click", elementId := some (jsParseInt a0) }
    | _ => { type := "done" }
  | "Type" =>
    match p.args with
    | some (a0 :: a1 :: _) =>
      { type := "type", elementId := some (jsParseInt a0), text := some a1 }
    | _ => { type := "done" }
  | "Scroll" =>
    match p.args with
    | some (_ :: a1 :: _) => { type := "scroll", direction := some a1 }
    | _ => { type := "done" }
  | "Wait" => { type := "wait", duration := some 5000 }
  | "GoBack" => { type := "done" }
  | "Navigate" =>
    { type := "navigate",
      url := some (match p.args with | some (a0 :: _) => a0 | _ => "") }
  | "ANSWER" => { type := "done" }
  | "retry" => { type := "wait", duration := some 1000 }
  | _ => { type := "done" }

/-- Rendering of the possibly-NaN element id inside template strings. -/
def jsIntToString : JsInt → String
  | .nan => "NaN"
  | .val n => toString n

/-- Rendering of an optional element id inside template strings. -/
def showElementId : Option JsInt → String
  | some j => jsIntToString j
  | none => "undefined"

/-- AgentController.getActionDescription, the Korean one-line description of
an action (used both for progress display and as the per-step history
record). -/
def getActionDescription (a : AIAction) : String :=
  match a.type with
  | "click" =>
    if jsTruthyNum a.elementId then "요소 " ++ showElementId a.elementId ++ " 클릭"
    else "클릭"
  | "type" =>
    let t := (a.text).getD "undefined"
    if jsTruthyNum a.elementId then
      "요소 " ++ showElementId a.elementId ++ "에 \"" ++ t ++ "\" 입력"
    else "\"" ++ t ++ "\" 입력"
  | "scroll" =>
    (if a.direction = some "up" then "위로" else "아래로") ++ " 스크롤"
  | "wait" => toString (jsOrNum a.duration 2000) ++ "ms 대기"
  | "navigate" => (a.url).getD "undefined" ++ "로 이동"
  | "done" => "작업 완료"
  | _ => "알 수 없는 작업"

/-- Per-step record, mirroring ActionResult of src/shared/types.ts. -/
structure ActionResult where
  success : Bool
  message : String
  error : Option String := none
  reasoning : Option String := none
deriving DecidableEq, Repr

/-- AgentController.executeAction (the sidepanel wrapper around the
EXECUTE_ACTION message): a successful response yields a success record with
the action description, any failure path (no response, failure response,
thrown error) yields a failure record carrying the error text.  fail is the
environment-supplied failure of the message round trip, none meaning
success. -/
def execMessageResult (fail : Option String) (a : AIAction) : ActionResult :=
  match fail with
  | none => { success := true, message := getActionDescription a }
  | some e =>
    { success := false, message := "액션 실행 실패: " ++ a.type, error := some e }

/-- AgentController.updateScratchpad: bootstrap the header when the pad is
empty, then append one numbered line for the step. -/
def updateScratchpad (stepNumber : Nat) (sp : String) (r : ActionResult) : String :=
  let sp1 := if sp = "" then "Previous action observations:\n" else sp
  sp1 ++ "\n" ++ toString stepNumber ++ ". " ++ r.message

/-- Step record pushed when the element scan returns nothing. -/
def noElementsResult : ActionResult :=
  { success := false, message := "클릭 가능한 요소를 찾을 수 없습니다.",
    error := some "No clickable elements found" }

/-- Step record pushed when the oracle answers with the terminal ANSWER
decision. -/
def answerResult (reasoning : String) : ActionResult :=
  { success := true, message := "🤖 AI 분석 결과: " ++ reasoning,
    reasoning := some reasoning }

/-- External collaborators of one agent run, indexed by the 1-based step
number: the element scan, the oracle (which also receives the scratchpad it
is shown), the outcome of the EXECUTE_ACTION round trip, and the value of
the cooperative stop flag as observed after a given number of completed
cycles.  Throw-free behaviour of screenshot capture and element marking is
assumed; their failure modes abort the run through the outer catch and are
not needed by the tracked claims. -/
structure AgentEnv where
  elems : Nat → List MarkedElement
  predict : Nat → String → Prediction
  execFail : Nat → Option String
  stopFlag : Nat → Bool

/-- Outcome of the while loop of runAgent: the recorded steps, the final
scratchpad, the scratchpad value passed to each oracle consultation in
order, the final currentStep counter and the shouldStop value at exit. -/
structure LoopOut where
  steps : List ActionResult
  scratchpad : String
  oracleLog : List String
  currentStep : Nat
  stopped : Bool
deriving DecidableEq, Repr

/-- The while loop of AgentController.runAgent.  The fuel argument is
maxSteps minus currentStep, so fuel 0 is exactly the failed loop condition
currentStep < maxSteps; the stop flag is consulted at the top of every
cycle and once more after the loop, both reading the value indexed by the
number of completed cycles. -/
def runLoop (env : AgentEnv) :
    Nat → Nat → String → List ActionResult → List String → LoopOut
  | 0, cs, sp, steps, log => ⟨steps, sp, log, cs, env.stopFlag cs⟩
  | fuel + 1, cs, sp, steps, log =>
    if env.stopFlag cs then ⟨steps, sp, log, cs, true⟩
    else
      let cs2 := cs + 1
      if (env.elems cs2).isEmpty then
        ⟨steps ++ [noElementsResult], sp, log, cs2, env.stopFlag cs2⟩
      else
        let p := env.predict cs2 sp
        let log2 := log ++ [sp]
        if p.action = "ANSWER" then
          ⟨steps ++ [answerResult p.reasoning], sp, log2, cs2, env.stopFlag cs2⟩
        else
          let a := convertPredictionToAction p
          let r0 := execMessageResult (env.execFail cs2) a
          let r := { r0 with reasoning := some p.reasoning }
          let steps2 := steps ++ [r]
          let sp2 := updateScratchpad cs2 sp r
          if a.type = "done" then ⟨steps2, sp2, log2, cs2, env.stopFlag cs2⟩
          else runLoop env fuel cs2 sp2 steps2 log2

/-- Step bound of the controller (private maxSteps = 10). -/
def maxSteps : Nat := 10

/-- Run result, mirroring the AgentResult interface. -/
structure AgentResult where
  success : Bool
  summary : String
  error : Option String := none
  steps : List ActionResult
deriving DecidableEq, Repr

/-- Fields of the AgentController instance that survive across runs. -/
structure AgentControllerState where
  scratchpad : String := ""
  currentStep : Nat := 0
deriving DecidableEq, Repr

/-- Summary built after a non-cancelled run: the numbered step messages
joined by newlines, or the no-work notice when nothing ran. -/
def summaryOf (steps : List ActionResult) : String :=
  if steps.isEmpty then "아무 작업도 수행되지 않았습니다."
  else
    String.intercalate "\n"
      (steps.enum.map (fun pr => toString (pr.1 + 1) ++ ". " ++ pr.2.message))

/-- AgentController.runAgent: reset currentStep (but not the scratchpad,
which the source never clears), run the bounded loop, then build either the
cancelled result or the ordinary result whose success flag asks for at
least one successful step.  Returns the run result, the surviving
controller state and the oracle consultation log. -/
def runAgentModel (env : AgentEnv) (st : AgentControllerState) :
    AgentResult × AgentControllerState × List String :=
  let out := runLoop env maxSteps 0 st.scratchpad [] []
  let st2 : AgentControllerState :=
    { scratchpad := out.scratchpad, currentStep := out.currentStep }
  let res : AgentResult :=
    if out.stopped then
      { success := false,
        summary := "사용자가 작업을 중단했습니다. (" ++ toString out.currentStep ++ "단계에서 중단)",
        error := some "User cancelled", steps := out.steps }
    else
      { success := !(out.steps.filter (fun s => s.success)).isEmpty,
        summary := summaryOf out.steps,
        error := (out.steps.find? (fun s => !s.success)).bind (fun s => s.error),
        steps := out.steps }
  (res, st2, out.oracleLog)

/-- Step record produced by cycle k of a run whose scratchpad was sp at the
top of the cycle (the execution result with the oracle reasoning patched
in). -/
def stepResult (env : AgentEnv) (k : Nat) (sp : String) : ActionResult :=
  { execMessageResult (env.execFail k) (convertPredictionToAction (env.predict k sp)) with
    reasoning := some (env.predict k sp).reasoning }

/-! ## Concrete fixtures used by witnesses and counterexamples -/

/-- Element with the given id whose bounding box has the given left, top,
width and height (the derived DOMRect fields filled in accordingly). -/
def mkEl (i : Int) (l t w h : Rat) : MarkedElement :=
  { id := i, tagName := "a", text := "x",
    rect := { x := l, y := t, width := w, height := h,
              left := l, top := t, right := l + w, bottom := t + h } }

/-- Session instance used by concrete tab scenarios. -/
def c8Sess : CDPSessionInst := { sid := 0, tabId := 1, connected := true }

/-- Document instance holding a cached observation for URL a. -/
def c8Doc : DocumentState :=
  { elements := [mkEl 1 0 0 2 2], url := "a", isMarked := true }

/-- Tab on URL a with a connected session and a cached observation. -/
def c8Tab : TabState :=
  { tabId := 1, url := "a", document := some c8Doc, cdpSession := some c8Sess,
    isInitialized := true }

/-- Environment whose oracle always answers GoBack, so a run records exactly
one done step and terminates. -/
def goBackEnv : AgentEnv :=
  { elems := fun _ => [mkEl 1 0 0 2 2],
    predict := fun _ _ => { action := "GoBack", reasoning := "r" },
    execFail := fun _ => none,
    stopFlag := fun _ => false }

/-- Environment whose oracle always clicks element 1 and whose user raises
the stop flag after three completed cycles. -/
def clickStopEnv : AgentEnv :=
  { elems := fun _ => [mkEl 1 0 0 2 2],
    predict := fun _ _ => { action := "Click", args := some ["1"], reasoning := "r" },
    execFail := fun _ => none,
    stopFlag := fun k => decide (3 ≤ k) }

/-- Suffix-extension order on scratchpads: b extends a when b is a followed
by some (possibly empty) tail. -/
def spExt (a b : String) : Prop := ∃ tl, b = a ++ tl

/-- Scratchpad value at the top of cycle k + 1 of a run that started with
scratchpad sp and whose first k cycles all executed an action (the non-empty,
non-ANSWER, non-done path). -/
def cycleSp (env : AgentEnv) (sp : String) : Nat → String
  | 0 => sp
  | k + 1 => updateScratchpad (k + 1) (cycleSp env sp k) (stepResult env (k + 1) (cycleSp env sp k))

/-! # Theorems -/

/-- Helper: updateScratchpad only ever appends. -/
theorem updateScratchpad_spExt (n : Nat) (sp : String) (r : ActionResult) :
    spExt sp (updateScratchpad n sp r) := by
  by_cases h : sp = ""
  · exact ⟨updateScratchpad n sp r, by rw [h]; simp⟩
  · refine ⟨"\n" ++ toString n ++ ". " ++ r.message, ?_⟩
    simp [updateScratchpad, h, String.append_assoc]

/-- Helper: a chain ending in a may be extended by any b related to a. -/
theorem chain'_snoc {α : Type} {R : α → α → Prop} {l : List α} {a b : α}
    (h : List.Chain' R (l ++ [a])) (hab : R a b) :
    List.Chain' R ((l ++ [a]) ++ [b]) := by
  rw [List.chain'_append]
  refine ⟨h, List.chain'_singleton b, ?_⟩
  intro x hx y hy
  rw [List.getLast?_append_cons] at hx
  simp at hx hy
  rw [← hx, ← hy]
  exact hab

/-- Helper: the scratchpad values handed to successive oracle calls in one
loop run form a suffix-extension chain, with the final scratchpad extending
the last of them. -/
theorem runLoop_oracleLog_chain (env : AgentEnv) :
    ∀ (fuel cs : Nat) (sp : String) (steps : List ActionResult) (log : List String),
    List.Chain' spExt (log ++ [sp]) →
    List.Chain' spExt ((runLoop env fuel cs sp steps log).oracleLog
      ++ [(runLoop env fuel cs sp steps log).scratchpad]) := by
  intro fuel
  induction fuel with
  | zero => intro cs sp steps log h; simpa [runLoop] using h
  | succ fuel ih =>
    intro cs sp steps log h
    simp only [runLoop]
    by_cases h1 : env.stopFlag cs = true
    · rw [if_pos h1]
      simpa using h
    · rw [if_neg h1]
      by_cases h2 : (env.elems (cs + 1)).isEmpty = true
      · rw [if_pos h2]
        simpa using h
      · rw [if_neg h2]
        by_cases h3 : (env.predict (cs + 1) sp).action = "ANSWER"
        · rw [if_pos h3]
          simpa using chain'_snoc h ⟨"", by simp⟩
        · rw [if_neg h3]
          by_cases h4 : (convertPredictionToAction (env.predict (cs + 1) sp)).type = "done"
          · rw [if_pos h4]
            simpa using chain'_snoc h (updateScratchpad_spExt _ _ _)
          · rw [if_neg h4]
            exact ih _ _ _ _ (chain'_snoc h (updateScratchpad_spExt _ _ _))

/-- Helper: the loop only appends to the oracle log it is given. -/
theorem runLoop_oracleLog_extends (env : AgentEnv) :
    ∀ (fuel cs : Nat) (sp : String) (steps : List ActionResult) (log : List String),
    ∃ tl, (runLoop env fuel cs sp steps log).oracleLog = log ++ tl := by
  intro fuel
  induction fuel with
  | zero => intro cs sp steps log; exact ⟨[], by simp [runLoop]⟩
  | succ fuel ih =>
    intro cs sp steps log
    simp only [runLoop]
    by_cases h1 : env.stopFlag cs = true
    · rw [if_pos h1]; exact ⟨[], by simp⟩
    · rw [if_neg h1]
      by_cases h2 : (env.elems (cs + 1)).isEmpty = true
      · rw [if_pos h2]; exact ⟨[], by simp⟩
      · rw [if_neg h2]
        by_cases h3 : (env.predict (cs + 1) sp).action = "ANSWER"
        · rw [if_pos h3]; exact ⟨[sp], by simp⟩
        · rw [if_neg h3]
          by_cases h4 : (convertPredictionToAction (env.predict (cs + 1) sp)).type = "done"
          · rw [if_pos h4]; exact ⟨[sp], by simp⟩
          · rw [if_neg h4]
            obtain ⟨tl, htl⟩ := ih (cs + 1)
              (updateScratchpad (cs + 1) sp
                { execMessageResult (env.execFail (cs + 1))
                    (convertPredictionToAction (env.predict (cs + 1) sp)) with
                  reasoning := some (env.predict (cs + 1) sp).reasoning })
              (steps ++ [{ execMessageResult (env.execFail (cs + 1))
                  (convertPredictionToAction (env.predict (cs + 1) sp)) with
                reasoning := some (env.predict (cs + 1) sp).reasoning }])
              (log ++ [sp])
            exact ⟨[sp] ++ tl, by rw [htl, List.append_assoc]⟩

/-- Helper: the loop records at most fuel further steps. -/
theorem runLoop_steps_length (env : AgentEnv) :
    ∀ (fuel cs : Nat) (sp : String) (steps : List ActionResult) (log : List String),
    (runLoop env fuel cs sp steps log).steps.length ≤ steps.length + fuel := by
  intro fuel
  induction fuel with
  | zero => intro cs sp steps log; simp [runLoop]
  | succ fuel ih =>
    intro cs sp steps log
    simp only [runLoop]
    by_cases h1 : env.stopFlag cs = true
    · rw [if_pos h1]; simp
    · rw [if_neg h1]
      by_cases h2 : (env.elems (cs + 1)).isEmpty = true
      · rw [if_pos h2]; simp
      · rw [if_neg h2]
        by_cases h3 : (env.predict (cs + 1) sp).action = "ANSWER"
        · rw [if_pos h3]; simp
        · rw [if_neg h3]
          by_cases h4 : (convertPredictionToAction (env.predict (cs + 1) sp)).type = "done"
          · rw [if_pos h4]; simp
          · rw [if_neg h4]
            have := ih (cs + 1)
              (updateScratchpad (cs + 1) sp
                { execMessageResult (env.execFail (cs + 1))
                    (convertPredictionToAction (env.predict (cs + 1) sp)) with
                  reasoning := some (env.predict (cs + 1) sp).reasoning })
              (steps ++ [{ execMessageResult (env.execFail (cs + 1))
                  (convertPredictionToAction (env.predict (cs + 1) sp)) with
                reasoning := some (env.predict (cs + 1) sp).reasoning }])
              (log ++ [sp])
            simp at this
            omega

/-- Helper: when the first cycle of the remaining loop runs its oracle call
(no stop, elements present), the first entry of the produced oracle log is
the incoming scratchpad. -/
theorem runLoop_oracleLog_head (env : AgentEnv) (fuel cs : Nat) (sp : String)
    (steps : List ActionResult) (log : List String)
    (h1 : env.stopFlag cs = false)
    (h2 : (env.elems (cs + 1)).isEmpty = false) :
    (runLoop env (fuel + 1) cs sp steps log).oracleLog.head? = (log ++ [sp]).head? := by
  simp only [runLoop]
  rw [if_neg (by simp [h1]), if_neg (by simp [h2])]
  by_cases h3 : (env.predict (cs + 1) sp).action = "ANSWER"
  · rw [if_pos h3]
  · rw [if_neg h3]
    by_cases h4 : (convertPredictionToAction (env.predict (cs + 1) sp)).type = "done"
    · rw [if_pos h4]
    · rw [if_neg h4]
      obtain ⟨tl, htl⟩ := runLoop_oracleLog_extends env fuel (cs + 1)
        (updateScratchpad (cs + 1) sp
          { execMessageResult (env.execFail (cs + 1))
              (convertPredictionToAction (env.predict (cs + 1) sp)) with
            reasoning := some (env.predict (cs + 1) sp).reasoning })
        (steps ++ [{ execMessageResult (env.execFail (cs + 1))
            (convertPredictionToAction (env.predict (cs + 1) sp)) with
          reasoning := some (env.predict (cs + 1) sp).reasoning }])
        (log ++ [sp])
      rw [htl]
      cases log <;> simp

/-- C7: calling ensureCDPConnection twice in a row (with the host letting
connect succeed and no intervening disconnect event) returns from the second
call the exact state and allocation counter produced by the first call — no
new session is constructed — and the session stored after the first call is
connected. -/
theorem C7_ensure_session_idempotent (t : TabState) (fresh : Nat) :
    Tab.ensureCDPConnection true (Tab.ensureCDPConnection true t fresh).1
        (Tab.ensureCDPConnection true t fresh).2.1
      = ((Tab.ensureCDPConnection true t fresh).1,
         (Tab.ensureCDPConnection true t fresh).2.1, .ok ())
    ∧ ∃ s, (Tab.ensureCDPConnection true t fresh).1.cdpSession = some s
        ∧ s.connected = true := by
  rcases t with ⟨tid, url, doc, sess, init⟩
  cases sess with
  | none => simp [Tab.ensureCDPConnection]
  | some s =>
    by_cases hc : s.connected = true
    · simp [Tab.ensureCDPConnection, hc]
    · simp [Tab.ensureCDPConnection, hc]

/-- C8: a URL-change event on a tab with a live session clears the cached
observation, disconnects and drops the session, and the next
ensureCDPConnection constructs and connects a fresh session instance (with a
new allocation nonce) rather than reusing the old one. -/
theorem C8_url_change_invalidates (t : TabState) (u : String) (s : CDPSessionInst)
    (d : DocumentState) (fresh : Nat)
    (hs : t.cdpSession = some s) (hd : t.document = some d)
    (hu : d.url ≠ u) (hf : s.sid < fresh) :
    (Tab.onUrlChanged t u).1.document = some { elements := [], url := u, isMarked := false }
    ∧ (Tab.onUrlChanged t u).1.cdpSession = none
    ∧ (Tab.onUrlChanged t u).2 = some { s with connected := false }
    ∧ (Tab.ensureCDPConnection true (Tab.onUrlChanged t u).1 fresh).2.2 = .ok ()
    ∧ ∃ s2, (Tab.ensureCDPConnection true (Tab.onUrlChanged t u).1 fresh).1.cdpSession = some s2
        ∧ s2.connected = true ∧ s2.sid ≠ s.sid := by
  rcases t with ⟨tid, url, doc, sess, init⟩
  simp only at hs hd
  subst hs
  subst hd
  refine ⟨?_, ?_, ?_, ?_, ?_⟩ <;>
    simp [Tab.onUrlChanged, Document.updateUrl, hu, Tab.ensureCDPConnection,
      CDPSessionInst.disconnect]
  omega

/-- C8 witness: the concrete tab on URL a, navigated to URL b with allocation
counter 5, loses its observation and session and gets a fresh connected one. -/
theorem C8_url_change_invalidates_witness :
    (Tab.onUrlChanged c8Tab "b").1.document = some { elements := [], url := "b", isMarked := false }
    ∧ (Tab.onUrlChanged c8Tab "b").1.cdpSession = none
    ∧ (Tab.onUrlChanged c8Tab "b").2 = some { c8Sess with connected := false }
    ∧ (Tab.ensureCDPConnection true (Tab.onUrlChanged c8Tab "b").1 5).2.2 = .ok ()
    ∧ ∃ s2, (Tab.ensureCDPConnection true (Tab.onUrlChanged c8Tab "b").1 5).1.cdpSession = some s2
        ∧ s2.connected = true ∧ s2.sid ≠ c8Sess.sid :=
  C8_url_change_invalidates c8Tab "b" c8Sess c8Doc 5 rfl rfl (by decide) (by decide)

/-- C10: because the null-checks on activeTabId and activeWindowId are
falsiness checks, the integer 0 is treated as absent: getActiveTab returns
null whenever activeTabId is 0, and getActiveBrowser returns null whenever
activeWindowId is 0, regardless of the map contents. -/
theorem C10_zero_active_id_treated_absent :
    (∀ s : BrowserState, s.activeTabId = some 0 → Browser.getActiveTab s = none)
    ∧ (∀ c : ChromeControllerState, c.activeWindowId = some 0 →
        ChromeController.getActiveBrowser c = none) := by
  constructor
  · intro s h
    simp [Browser.getActiveTab, h, jsTruthyIntOpt]
  · intro c h
    simp [ChromeController.getActiveBrowser, h, jsTruthyIntOpt]

/-- C9 counterexample: a Click prediction whose argument is not numeric is
malformed, yet it does not map to the done action — it maps to a click
action carrying elementId NaN (parseInt of a non-numeric string). -/
theorem C9_counterexample :
    convertPredictionToAction { action := "Click", args := some ["abc"], reasoning := "r" }
      = { type := "click", elementId := some JsInt.nan }
    ∧ ({ type := "click", elementId := some JsInt.nan : AIAction }).type ≠ "done" := by
  decide

/-- C9 amended: the conversion is total — every prediction, whatever its tag
and args, maps to exactly one action without throwing — and its value is as
follows, tag by tag.  Every unrecognized tag maps to the terminal done
action, as do Click, Type and Scroll when the args array is missing or too
short for the tag.  GoBack and ANSWER map to done whatever the args.  Wait
maps to a 5000ms wait and retry to a 1000ms wait whatever the args.
Navigate always maps to a navigate action, with url args[0] or the empty
string when the args are missing or empty.  Click, Type and Scroll with
enough args map to the corresponding click, type and scroll actions even
when the argument contents are malformed: a non-numeric id becomes
elementId NaN and an arbitrary direction string passes through uninspected. -/
theorem C9_conversion_total_amended :
    (∀ p : Prediction,
      p.action ∉ ["Click", "Type", "Scroll", "Wait", "GoBack", "Navigate", "ANSWER", "retry"] →
      convertPredictionToAction p = { type := "done" })
    ∧ (∀ r, convertPredictionToAction { action := "Click", args := none, reasoning := r }
        = { type := "done" })
    ∧ (∀ r, convertPredictionToAction { action := "Click", args := some [], reasoning := r }
        = { type := "done" })
    ∧ (∀ a0 rest r,
        convertPredictionToAction { action := "Click", args := some (a0 :: rest), reasoning := r }
        = { type := "click", elementId := some (jsParseInt a0) })
    ∧ (∀ r, convertPredictionToAction { action := "Type", args := none, reasoning := r }
        = { type := "done" })
    ∧ (∀ r, convertPredictionToAction { action := "Type", args := some [], reasoning := r }
        = { type := "done" })
    ∧ (∀ a0 r, convertPredictionToAction { action := "Type", args := some [a0], reasoning := r }
        = { type := "done" })
    ∧ (∀ a0 a1 rest r,
        convertPredictionToAction
          { action := "Type", args := some (a0 :: a1 :: rest), reasoning := r }
        = { type := "type", elementId := some (jsParseInt a0), text := some a1 })
    ∧ (∀ r, convertPredictionToAction { action := "Scroll", args := none, reasoning := r }
        = { type := "done" })
    ∧ (∀ r, convertPredictionToAction { action := "Scroll", args := some [], reasoning := r }
        = { type := "done" })
    ∧ (∀ a0 r, convertPredictionToAction { action := "Scroll", args := some [a0], reasoning := r }
        = { type := "done" })
    ∧ (∀ a0 a1 rest r,
        convertPredictionToAction
          { action := "Scroll", args := some (a0 :: a1 :: rest), reasoning := r }
        = { type := "scroll", direction := some a1 })
    ∧ (∀ args r, convertPredictionToAction { action := "Wait", args := args, reasoning := r }
        = { type := "wait", duration := some 5000 })
    ∧ (∀ args r, convertPredictionToAction { action := "GoBack", args := args, reasoning := r }
        = { type := "done" })
    ∧ (∀ a0 rest r,
        convertPredictionToAction
          { action := "Navigate", args := some (a0 :: rest), reasoning := r }
        = { type := "navigate", url := some a0 })
    ∧ (∀ r, convertPredictionToAction { action := "Navigate", args := none, reasoning := r }
        = { type := "navigate", url := some "" })
    ∧ (∀ r, convertPredictionToAction { action := "Navigate", args := some [], reasoning := r }
        = { type := "navigate", url := some "" })
    ∧ (∀ args r, convertPredictionToAction { action := "ANSWER", args := args, reasoning := r }
        = { type := "done" })
    ∧ (∀ args r, convertPredictionToAction { action := "retry", args := args, reasoning := r }
        = { type := "wait", duration := some 1000 }) := by
  refine ⟨?_, fun r => rfl, fun r => rfl, fun a0 rest r => rfl, fun r => rfl,
    fun r => rfl, fun a0 r => rfl, fun a0 a1 rest r => rfl, fun r => rfl, fun r => rfl,
    fun a0 r => rfl, fun a0 a1 rest r => rfl,
    fun args r => rfl, fun args r => rfl, fun a0 rest r => rfl, fun r => rfl, fun r => rfl,
    fun args r => rfl, fun args r => rfl⟩
  rintro ⟨act, args, r⟩ h
  simp only [List.mem_cons, List.not_mem_nil, or_false] at h
  push_neg at h
  obtain ⟨h1, h2, h3, h4, h5, h6, h7, h8⟩ := h
  simp only [convertPredictionToAction]

/-- C9 witness: an unrecognized tag maps to done. -/
theorem C9_conversion_total_amended_witness :
    convertPredictionToAction { action := "Zzz", args := some ["1"], reasoning := "r" }
      = { type := "done" } :=
  C9_conversion_total_amended.1
    { action := "Zzz", args := some ["1"], reasoning := "r" } (by decide)

/-- C1 counterexample: the click is dispatched at Math.round of the element
center, not at the center itself — for a 1 by 1 box at the origin the
center x is one half but every mouse event goes to x equal 1. -/
theorem C1_counterexample :
    executeActionTrace true { type := "click", elementId := some (.val 1) }
        (some [mkEl 1 0 0 1 1])
      = ([ .cmd (.dispatchMouseEvent "mouseMoved" 1 1 "none" 0),
           .cmd (.dispatchMouseEvent "mousePressed" 1 1 "left" 1),
           .sleep 50,
           .cmd (.dispatchMouseEvent "mouseReleased" 1 1 "left" 1) ], .ok ())
    ∧ (1 : Rat) ≠ rectCenterX (mkEl 1 0 0 1 1).rect := by
  constructor
  · simp only [executeActionTrace, jsFind, List.find?, jsIntEq, mkEl, simulateClickTr,
      rectCenterX, rectCenterY]
    norm_num [jsRound]
  · norm_num [rectCenterX, mkEl]

/-- C1 amended: for every Click action whose elementId names an element of
the supplied snapshot, executeAction on a connected session dispatches
mouse-move, mouse-down, a 50ms delay and mouse-up, all at the single point
obtained by applying Math.round to the center coordinates
(left + width / 2, top + height / 2) of that element — which coincides with
the center itself whenever the center coordinates are integers, as in the
(60, 35) example. -/
theorem C1_click_rounded_center (a : AIAction) (es : List MarkedElement)
    (i : Int) (el : MarkedElement)
    (hty : a.type = "click") (hid : a.elementId = some (.val i))
    (hfind : jsFind es (.val i) = some el) :
    executeActionTrace true a (some es)
      = ([ .cmd (.dispatchMouseEvent "mouseMoved"
             (jsRound (rectCenterX el.rect)) (jsRound (rectCenterY el.rect)) "none" 0),
           .cmd (.dispatchMouseEvent "mousePressed"
             (jsRound (rectCenterX el.rect)) (jsRound (rectCenterY el.rect)) "left" 1),
           .sleep 50,
           .cmd (.dispatchMouseEvent "mouseReleased"
             (jsRound (rectCenterX el.rect)) (jsRound (rectCenterY el.rect)) "left" 1) ],
         .ok ()) := by
  rcases a with ⟨ty, eid, tx, dir, dur, ax, ay, url, amt⟩
  simp only at hty hid
  subst hty
  subst hid
  simp [executeActionTrace, hfind, simulateClickTr]

/-- C1 witness: the spec scenario — element id 2 with box left 10, top 20,
width 100, height 30 — yields the click point (60, 35) for all four events. -/
theorem C1_click_rounded_center_witness :
    executeActionTrace true { type := "click", elementId := some (.val 2) }
        (some [mkEl 2 10 20 100 30])
      = ([ .cmd (.dispatchMouseEvent "mouseMoved" 60 35 "none" 0),
           .cmd (.dispatchMouseEvent "mousePressed" 60 35 "left" 1),
           .sleep 50,
           .cmd (.dispatchMouseEvent "mouseReleased" 60 35 "left" 1) ], .ok ()) := by
  rw [C1_click_rounded_center { type := "click", elementId := some (.val 2) }
    [mkEl 2 10 20 100 30] 2 (mkEl 2 10 20 100 30) rfl rfl rfl]
  norm_num [jsRound, rectCenterX, rectCenterY, mkEl]

/-- C4 counterexample: runAgent never clears the scratchpad, so after a run
that recorded a step the controller still holds that record, and the first
oracle consultation of the next run is handed the previous run's history
instead of an empty one. -/
theorem C4_counterexample :
    (runAgentModel goBackEnv {}).2.1.scratchpad
      = "Previous action observations:\n\n1. 작업 완료"
    ∧ (runAgentModel goBackEnv ((runAgentModel goBackEnv {}).2.1)).2.2.head?
      = some "Previous action observations:\n\n1. 작업 완료"
    ∧ ("Previous action observations:\n\n1. 작업 완료" : String) ≠ "" := by
  refine ⟨by decide, by decide, by decide⟩

/-- C4 amended: within one run the scratchpad grows monotonically — the
values handed to successive oracle calls form a suffix-extension chain — but
the history is never discarded at the end of a run: the controller keeps the
loop's final scratchpad, and any subsequent run whose first cycle reaches
the oracle hands it the leftover scratchpad rather than an empty one. -/
theorem C4_scratchpad_amended :
    (∀ (env : AgentEnv) (st : AgentControllerState),
      List.Chain' spExt (runAgentModel env st).2.2)
    ∧ (∀ (env : AgentEnv) (st : AgentControllerState),
      (runAgentModel env st).2.1.scratchpad
        = (runLoop env maxSteps 0 st.scratchpad [] []).scratchpad)
    ∧ (∀ (env : AgentEnv) (st : AgentControllerState),
      env.stopFlag 0 = false → (env.elems 1).isEmpty = false →
      (runAgentModel env st).2.2.head? = some st.scratchpad) := by
  refine ⟨?_, ?_, ?_⟩
  · intro env st
    have h := runLoop_oracleLog_chain env maxSteps 0 st.scratchpad [] []
      (by simp)
    have h2 : (runAgentModel env st).2.2
        = (runLoop env maxSteps 0 st.scratchpad [] []).oracleLog := rfl
    rw [h2]
    exact h.left_of_append
  · intro env st
    rfl
  · intro env st h1 h2
    have h0 : (runAgentModel env st).2.2
        = (runLoop env maxSteps 0 st.scratchpad [] []).oracleLog := rfl
    rw [h0, show maxSteps = 9 + 1 from rfl,
      runLoop_oracleLog_head env 9 0 st.scratchpad [] [] h1 h2]
    simp

/-- C4 witness: the chain property on a concrete run, and a second run
started with leftover history old receiving exactly old at its first oracle
call. -/
theorem C4_scratchpad_amended_witness :
    List.Chain' spExt (runAgentModel goBackEnv ⟨"", 0⟩).2.2
    ∧ (runAgentModel goBackEnv ⟨"old", 0⟩).2.2.head? = some "old" :=
  ⟨C4_scratchpad_amended.1 goBackEnv ⟨"", 0⟩,
   C4_scratchpad_amended.2.2 goBackEnv ⟨"old", 0⟩ rfl rfl⟩

/-- Helper: one non-terminal cycle of the loop (flag down, elements found,
decision neither ANSWER nor mapping to done) consumes one unit of fuel,
records one step, logs one oracle call and extends the scratchpad. -/
theorem runLoop_cycle_step (env : AgentEnv) (fuel cs : Nat) (sp : String)
    (steps : List ActionResult) (log : List String)
    (hstop : env.stopFlag cs = false)
    (helems : (env.elems (cs + 1)).isEmpty = false)
    (hans : (env.predict (cs + 1) sp).action ≠ "ANSWER")
    (hdone : (convertPredictionToAction (env.predict (cs + 1) sp)).type ≠ "done") :
    runLoop env (fuel + 1) cs sp steps log
      = runLoop env fuel (cs + 1) (updateScratchpad (cs + 1) sp (stepResult env (cs + 1) sp))
          (steps ++ [stepResult env (cs + 1) sp]) (log ++ [sp]) := by
  simp only [runLoop]
  rw [if_neg (by simp [hstop]), if_neg (by simp [helems]), if_neg hans, if_neg hdone]
  rfl

/-- Helper: a raised stop flag ends the loop at once, recording nothing. -/
theorem runLoop_stop (env : AgentEnv) (fuel cs : Nat) (sp : String)
    (steps : List ActionResult) (log : List String)
    (h : env.stopFlag cs = true) :
    runLoop env (fuel + 1) cs sp steps log = ⟨steps, sp, log, cs, true⟩ := by
  simp [runLoop, h]

/-- C5: every run records at most maxSteps (10) steps whatever the oracle
does; and when the cooperative stop flag goes up between cycle 3 and
cycle 4 of a run whose first three cycles execute ordinary actions, the run
ends with the distinct cancelled outcome — error tag User cancelled, the
cancellation summary, success false — and exactly 3 recorded steps. -/
theorem C5_bounded_and_cancellation :
    (∀ (env : AgentEnv) (st : AgentControllerState),
      (runAgentModel env st).1.steps.length ≤ maxSteps)
    ∧ (∀ (env : AgentEnv) (st : AgentControllerState),
      (∀ k, k < 3 → env.stopFlag k = false) →
      env.stopFlag 3 = true →
      (∀ k sp, 1 ≤ k → k ≤ 3 →
        (env.elems k).isEmpty = false
        ∧ (env.predict k sp).action ≠ "ANSWER"
        ∧ (convertPredictionToAction (env.predict k sp)).type ≠ "done") →
      (runAgentModel env st).1.error = some "User cancelled"
      ∧ (runAgentModel env st).1.steps.length = 3
      ∧ (runAgentModel env st).1.success = false
      ∧ (runAgentModel env st).1.summary
        = "사용자가 작업을 중단했습니다. (3단계에서 중단)") := by
  constructor
  · intro env st
    have hb := runLoop_steps_length env maxSteps 0 st.scratchpad [] []
    have hsteps : (runAgentModel env st).1.steps
        = (runLoop env maxSteps 0 st.scratchpad [] []).steps := by
      cases hs : (runLoop env maxSteps 0 st.scratchpad [] []).stopped <;>
        simp [runAgentModel, hs]
    rw [hsteps]
    simpa using hb
  · intro env st h0 h3 hcyc
    obtain ⟨he1, ha1, hd1⟩ := hcyc 1 (cycleSp env st.scratchpad 0) (by omega) (by omega)
    obtain ⟨he2, ha2, hd2⟩ := hcyc 2 (cycleSp env st.scratchpad 1) (by omega) (by omega)
    obtain ⟨he3, ha3, hd3⟩ := hcyc 3 (cycleSp env st.scratchpad 2) (by omega) (by omega)
    have s1 : runLoop env maxSteps 0 st.scratchpad [] []
        = runLoop env 9 1 (cycleSp env st.scratchpad 1)
            [stepResult env 1 (cycleSp env st.scratchpad 0)]
            [cycleSp env st.scratchpad 0] :=
      runLoop_cycle_step env 9 0 (cycleSp env st.scratchpad 0) [] []
        (h0 0 (by omega)) he1 ha1 hd1
    have s2 : runLoop env 9 1 (cycleSp env st.scratchpad 1)
          [stepResult env 1 (cycleSp env st.scratchpad 0)]
          [cycleSp env st.scratchpad 0]
        = runLoop env 8 2 (cycleSp env st.scratchpad 2)
            [stepResult env 1 (cycleSp env st.scratchpad 0),
             stepResult env 2 (cycleSp env st.scratchpad 1)]
            [cycleSp env st.scratchpad 0, cycleSp env st.scratchpad 1] :=
      runLoop_cycle_step env 8 1 (cycleSp env st.scratchpad 1) _ _
        (h0 1 (by omega)) he2 ha2 hd2
    have s3 : runLoop env 8 2 (cycleSp env st.scratchpad 2)
          [stepResult env 1 (cycleSp env st.scratchpad 0),
           stepResult env 2 (cycleSp env st.scratchpad 1)]
          [cycleSp env st.scratchpad 0, cycleSp env st.scratchpad 1]
        = runLoop env 7 3 (cycleSp env st.scratchpad 3)
            [stepResult env 1 (cycleSp env st.scratchpad 0),
             stepResult env 2 (cycleSp env st.scratchpad 1),
             stepResult env 3 (cycleSp env st.scratchpad 2)]
            [cycleSp env st.scratchpad 0, cycleSp env st.scratchpad 1,
             cycleSp env st.scratchpad 2] :=
      runLoop_cycle_step env 7 2 (cycleSp env st.scratchpad 2) _ _
        (h0 2 (by omega)) he3 ha3 hd3
    have s4 : runLoop env 7 3 (cycleSp env st.scratchpad 3)
          [stepResult env 1 (cycleSp env st.scratchpad 0),
           stepResult env 2 (cycleSp env st.scratchpad 1),
           stepResult env 3 (cycleSp env st.scratchpad 2)]
          [cycleSp env st.scratchpad 0, cycleSp env st.scratchpad 1,
           cycleSp env st.scratchpad 2]
        = ⟨[stepResult env 1 (cycleSp env st.scratchpad 0),
            stepResult env 2 (cycleSp env st.scratchpad 1),
            stepResult env 3 (cycleSp env st.scratchpad 2)],
           cycleSp env st.scratchpad 3,
           [cycleSp env st.scratchpad 0, cycleSp env st.scratchpad 1,
            cycleSp env st.scratchpad 2], 3, true⟩ :=
      runLoop_stop env 6 3 _ _ _ h3
    have hout := (s1.trans s2).trans (s3.trans s4)
    refine ⟨by simp [runAgentModel, hout], by simp [runAgentModel, hout],
      by simp [runAgentModel, hout], ?_⟩
    have hsum : (runAgentModel env st).1.summary
        = "사용자가 작업을 중단했습니다. (" ++ toString (3 : Nat) ++ "단계에서 중단)" := by
      simp [runAgentModel, hout]
    rw [hsum]
    decide

/-- C5 witness: the click-then-stop environment runs its bound and the
cancellation scenario concretely. -/
theorem C5_bounded_and_cancellation_witness :
    (runAgentModel clickStopEnv ⟨"", 0⟩).1.steps.length ≤ maxSteps
    ∧ (runAgentModel clickStopEnv ⟨"", 0⟩).1.error = some "User cancelled"
    ∧ (runAgentModel clickStopEnv ⟨"", 0⟩).1.steps.length = 3 := by
  have hA : ∀ k, k < 3 → clickStopEnv.stopFlag k = false := by
    intro k hk
    simp [clickStopEnv]
    omega
  have hB : clickStopEnv.stopFlag 3 = true := rfl
  have hC : ∀ k sp, 1 ≤ k → k ≤ 3 →
      (clickStopEnv.elems k).isEmpty = false
      ∧ (clickStopEnv.predict k sp).action ≠ "ANSWER"
      ∧ (convertPredictionToAction (clickStopEnv.predict k sp)).type ≠ "done" := by
    intro k sp hk1 hk2
    exact ⟨rfl, by simp [clickStopEnv], by simp [clickStopEnv, convertPredictionToAction]⟩
  have h := C5_bounded_and_cancellation.2 clickStopEnv ⟨"", 0⟩ hA hB hC
  exact ⟨C5_bounded_and_cancellation.1 clickStopEnv ⟨"", 0⟩, h.1, h.2.1⟩

/-- C2 counterexample: a type action referencing elementId 0 — an id absent
from the (empty) supplied snapshot, and a realistic one since marker ids
start at 0 — does not fail with element-not-found: the falsiness check on
elementId skips the lookup and the text is typed into the focused element,
issuing an Input.insertText protocol command and succeeding. -/
theorem C2_counterexample :
    executeActionTrace true
        { type := "type", elementId := some (.val 0), text := some "hello" } (some [])
      = ([.cmd (.insertText "hello")], .ok ())
    ∧ ([Event.cmd (Cmd.insertText "hello")] : List Event) ≠ [] := by
  decide

/-- C2 amended: click actions, scroll actions carrying a direction, and type
actions whose elementId is truthy (neither 0 nor NaN) and whose text is
nonempty fail with element-not-found and issue no protocol command when the
referenced elementId is absent from the supplied snapshot; a type action
with elementId 0 or NaN bypasses the lookup entirely. -/
theorem C2_element_not_found_amended :
    (∀ (a : AIAction) (es : List MarkedElement) (jid : JsInt) (c : Bool),
      a.type = "click" → a.elementId = some jid → jsFind es jid = none →
      executeActionTrace c a (some es) = ([], .error (.elementNotFound jid)))
    ∧ (∀ (a : AIAction) (es : List MarkedElement) (jid : JsInt) (c : Bool) (d : String),
      a.type = "scroll" → a.elementId = some jid → a.direction = some d → d ≠ "" →
      jsFind es jid = none →
      executeActionTrace c a (some es) = ([], .error (.elementNotFound jid)))
    ∧ (∀ (a : AIAction) (es : List MarkedElement) (n : Int) (s : String) (c : Bool),
      a.type = "type" → a.elementId = some (.val n) → n ≠ 0 → a.text = some s → s ≠ "" →
      jsFind es (.val n) = none →
      executeActionTrace c a (some es) = ([], .error (.elementNotFound (.val n)))) := by
  refine ⟨?_, ?_, ?_⟩
  · rintro ⟨ty, eid, tx, dir, dur, ax, ay, url, amt⟩ es jid c hty hid hfind
    simp only at hty hid
    subst hty
    subst hid
    simp [executeActionTrace, hfind]
  · rintro ⟨ty, eid, tx, dir, dur, ax, ay, url, amt⟩ es jid c d hty hid hdir hd hfind
    simp only at hty hid hdir
    subst hty
    subst hid
    subst hdir
    simp [executeActionTrace, jsTruthyStr, hd, hfind]
  · rintro ⟨ty, eid, tx, dir, dur, ax, ay, url, amt⟩ es n s c hty hid hn htx hs hfind
    simp only at hty hid htx
    subst hty
    subst hid
    subst htx
    simp [executeActionTrace, jsTruthyNum, jsTruthyStr, hn, hs, hfind]

/-- C2 witness: concrete absent ids — a click on id 9, a downward scroll on
id 9 and a type into id 9 against a snapshot holding only id 1 all fail with
element-not-found and an empty trace. -/
theorem C2_element_not_found_amended_witness :
    executeActionTrace true { type := "click", elementId := some (.val 9) }
        (some [mkEl 1 0 0 2 2])
      = ([], .error (.elementNotFound (.val 9)))
    ∧ executeActionTrace true
        { type := "scroll", elementId := some (.val 9), direction := some "down" }
        (some [mkEl 1 0 0 2 2])
      = ([], .error (.elementNotFound (.val 9)))
    ∧ executeActionTrace true
        { type := "type", elementId := some (.val 9), text := some "hi" }
        (some [mkEl 1 0 0 2 2])
      = ([], .error (.elementNotFound (.val 9))) :=
  ⟨C2_element_not_found_amended.1 _ _ _ true rfl rfl rfl,
   C2_element_not_found_amended.2.1 _ _ _ true "down" rfl rfl rfl (by decide) rfl,
   C2_element_not_found_amended.2.2 _ _ 9 "hi" true rfl rfl (by decide) rfl (by decide) rfl⟩

/-- C3 counterexample: a navigate action executed on an unattached session
does hand Page.navigate to the transport (chrome.debugger.sendCommand is
invoked without any connectivity guard) and the resulting failure is the
transport's detachment error, not the not-connected error. -/
theorem C3_counterexample :
    executeActionTrace false { type := "navigate", url := some "https://example.com" } none
      = ([.cmd (.pageNavigate "https://example.com")], .error .chromeError)
    ∧ CdpErr.chromeError ≠ CdpErr.notConnected
    ∧ ([Event.cmd (Cmd.pageNavigate "https://example.com")] : List Event) ≠ [] := by
  decide

/-- C3 amended: on an unattached session every guarded operation — screenshot
capture, click, type and scroll simulation, and hence every click, type or
scroll executeAction variant — fails without issuing any protocol command
(with the not-connected error when the target and arguments are valid); the
navigate variant is the exception: it is unguarded, hands Page.navigate to
the transport and fails with the transport's error instead. -/
theorem C3_unattached_amended :
    (∀ x y : Rat, simulateClickTr false x y = ([], .error .notConnected))
    ∧ (∀ s, simulateTypeTr false s = ([], .error .notConnected))
    ∧ (∀ (d : String) (amt : Rat) (x y : Option Rat),
        simulateScrollTr false d amt x y = ([], .error .notConnected))
    ∧ captureScreenshotTr false = ([], .error .notConnected)
    ∧ (∀ (a : AIAction) (es : Option (List MarkedElement)),
        a.type = "click" ∨ a.type = "type" ∨ a.type = "scroll" →
        (executeActionTrace false a es).1 = []
        ∧ ∃ e, (executeActionTrace false a es).2 = .error e)
    ∧ (∀ (a : AIAction) (es : Option (List MarkedElement)) (u : String),
        a.type = "navigate" → a.url = some u → u ≠ "" →
        executeActionTrace false a es = ([.cmd (.pageNavigate u)], .error .chromeError)) := by
  refine ⟨fun x y => rfl, fun s => rfl, fun d amt x y => rfl, rfl, ?_, ?_⟩
  · rintro ⟨ty, eid, tx, dir, dur, ax, ay, url, amt⟩ es (h | h | h) <;>
      simp only at h <;> subst h <;> simp only [executeActionTrace]
    · -- click
      cases eid with
      | none =>
        cases ax with
        | none => exact ⟨rfl, _, rfl⟩
        | some px =>
          cases ay with
          | none => exact ⟨rfl, _, rfl⟩
          | some py => exact ⟨rfl, _, rfl⟩
      | some jid =>
        cases es with
        | none =>
          cases ax with
          | none => exact ⟨rfl, _, rfl⟩
          | some px =>
            cases ay with
            | none => exact ⟨rfl, _, rfl⟩
            | some py => exact ⟨rfl, _, rfl⟩
        | some l =>
          cases hf : jsFind l jid with
          | none => simp [hf]
          | some el => simp [hf, simulateClickTr]
    · -- type
      by_cases hc : (jsTruthyNum eid && (Option.isSome es) && jsTruthyStr tx) = true
      · rw [if_pos hc]
        simp only [Bool.and_eq_true] at hc
        obtain ⟨⟨h1, h2⟩, h3⟩ := hc
        cases eid with
        | none => simp [jsTruthyNum] at h1
        | some j =>
          cases j with
          | nan => simp [jsTruthyNum] at h1
          | val n =>
            cases es with
            | none => simp at h2
            | some l =>
              cases tx with
              | none => simp [jsTruthyStr] at h3
              | some s =>
                cases hf : jsFind l (.val n) with
                | none => simp [hf]
                | some el => simp [hf, simulateClickTr]
      · rw [if_neg hc]
        by_cases ht : jsTruthyStr tx = true
        · rw [if_pos ht]
          cases tx with
          | none => simp [jsTruthyStr] at ht
          | some s => exact ⟨rfl, _, rfl⟩
        · rw [if_neg ht]
          exact ⟨rfl, _, rfl⟩
    · -- scroll
      by_cases hd : jsTruthyStr dir = true
      · simp only [hd, Bool.not_true, Bool.false_eq_true, if_false]
        cases eid with
        | none =>
          cases ax with
          | none => exact ⟨rfl, _, rfl⟩
          | some px =>
            cases ay with
            | none => exact ⟨rfl, _, rfl⟩
            | some py => exact ⟨rfl, _, rfl⟩
        | some jid =>
          cases es with
          | none =>
            cases ax with
            | none => exact ⟨rfl, _, rfl⟩
            | some px =>
              cases ay with
              | none => exact ⟨rfl, _, rfl⟩
              | some py => exact ⟨rfl, _, rfl⟩
          | some l =>
            cases hf : jsFind l jid with
            | none => simp [hf]
            | some el => simp [hf, simulateScrollTr]
      · simp only [Bool.not_eq_true] at hd
        simp [hd]
  · rintro ⟨ty, eid, tx, dir, dur, ax, ay, url, amt⟩ es u hty hu hne
    simp only at hty hu
    subst hty
    subst hu
    simp [executeActionTrace, jsTruthyStr, hne]

/-- C3 witness: a click targeting an element of the snapshot and a navigate,
both on an unattached session — the click fails with not-connected and an
empty trace, the navigate emits Page.navigate and fails with the transport
error. -/
theorem C3_unattached_amended_witness :
    ((executeActionTrace false { type := "click", elementId := some (.val 1) }
        (some [mkEl 1 0 0 2 2])).1 = []
      ∧ ∃ e, (executeActionTrace false { type := "click", elementId := some (.val 1) }
          (some [mkEl 1 0 0 2 2])).2 = .error e)
    ∧ executeActionTrace false { type := "navigate", url := some "https://a.com" } none
      = ([.cmd (.pageNavigate "https://a.com")], .error .chromeError) :=
  ⟨C3_unattached_amended.2.2.2.2.1 _ _ (Or.inl rfl),
   C3_unattached_amended.2.2.2.2.2 _ none "https://a.com" rfl rfl (by decide)⟩

/-- C6 counterexample: setActiveTab assigns unconditionally, so invoking it
with an id that is not a key of the tabs map completes the operation with
the invariant broken: on an empty browser, setActiveTab 5 leaves
activeTabId 5 while 5 is no key of tabs. -/
theorem C6_counterexample :
    (Browser.setActiveTab { windowId := 1, tabs := [], activeTabId := none } 5).activeTabId
      = some 5
    ∧ activeTabInv (Browser.setActiveTab { windowId := 1, tabs := [], activeTabId := none } 5)
      = false := by
  decide

/-- C6 amended: the invariant (a non-null activeTabId is a key of tabs) is
preserved by createTab, removeTab and destroy, and is established by
setActiveTab and by onTabActivated provided the activated tab already is, or
is successfully created as, a key of the map — which is how the in-repo
callers use setActiveTab, but is not enforced by the operation itself. -/
theorem C6_invariant_amended :
    (∀ (s : BrowserState) (tid : Int),
      activeTabInv s = true → activeTabInv (Browser.createTab s tid) = true)
    ∧ (∀ (s : BrowserState) (tid : Int),
      tid ∈ s.tabs → activeTabInv (Browser.setActiveTab s tid) = true)
    ∧ (∀ (s : BrowserState) (tid : Int),
      activeTabInv s = true → activeTabInv (Browser.removeTab s tid) = true)
    ∧ (∀ s : BrowserState, activeTabInv (Browser.destroy s) = true)
    ∧ (∀ (s : BrowserState) (tid : Int),
      activeTabInv s = true → activeTabInv (onTabActivatedBrowser true s tid) = true) := by
  refine ⟨?_, ?_, ?_, ?_, ?_⟩
  · rintro ⟨w, tabs, act⟩ tid h
    cases act with
    | none => simp [activeTabInv, Browser.createTab]
    | some a =>
      simp [activeTabInv, Browser.createTab, mapSetKey] at h ⊢
      split <;> simp [h]
  · rintro ⟨w, tabs, act⟩ tid h
    simp [activeTabInv, Browser.setActiveTab, h]
  · rintro ⟨w, tabs, act⟩ tid h
    cases act with
    | none =>
      simp [activeTabInv, Browser.removeTab]
    | some a =>
      simp [activeTabInv] at h
      by_cases he : a = tid
      · subst he
        simp [Browser.removeTab, activeTabInv]
        cases hh : (tabs.erase a).head? with
        | none => simp [hh]
        | some b =>
          simp [hh]
          exact List.mem_of_mem_head? (by simp [hh])
      · simp [Browser.removeTab, activeTabInv, he]
        exact h
  · rintro ⟨w, tabs, act⟩
    simp [activeTabInv, Browser.destroy]
  · rintro ⟨w, tabs, act⟩ tid h
    simp only [onTabActivatedBrowser, Browser.setActiveTab]
    by_cases hm : tid ∈ tabs
    · simp [hm, activeTabInv]
    · simp [hm, Browser.createTab, mapSetKey, activeTabInv]

/-- C6 witness: the amended preservation facts applied to concrete browsers. -/
theorem C6_invariant_amended_witness :
    activeTabInv (Browser.createTab { windowId := 1, tabs := [4], activeTabId := some 4 } 7) = true
    ∧ activeTabInv (Browser.setActiveTab { windowId := 1, tabs := [4, 7], activeTabId := some 4 } 7) = true
    ∧ activeTabInv (Browser.removeTab { windowId := 1, tabs := [4, 7], activeTabId := some 4 } 4) = true
    ∧ activeTabInv (Browser.destroy { windowId := 1, tabs := [4], activeTabId := some 4 }) = true
    ∧ activeTabInv (onTabActivatedBrowser true { windowId := 1, tabs := [4], activeTabId := some 4 } 9) = true :=
  ⟨C6_invariant_amended.1 _ 7 (by decide),
   C6_invariant_amended.2.1 _ 7 (by decide),
   C6_invariant_amended.2.2.1 _ 4 (by decide),
   C6_invariant_amended.2.2.2.1 _,
   C6_invariant_amended.2.2.2.2 _ 9 (by decide)⟩

/-- C10 witness: a browser that does contain a tab keyed 0 and has
activeTabId 0 still reports no active tab, and likewise for a controller
with a window keyed 0. -/
theorem C10_zero_active_id_treated_absent_witness :
    Browser.getActiveTab { windowId := 1, tabs := [0], activeTabId := some 0 } = none
    ∧ ChromeController.getActiveBrowser { browsers := [0], activeWindowId := some 0 } = none :=
  ⟨C10_zero_active_id_treated_absent.1 _ rfl,
   C10_zero_active_id_treated_absent.2 _ rfl⟩

end WebVoyager
